import Mathlib

/-!
Shallow embedding of the AI Research Agent application (src/main.py).

The program is a single Streamlit script. On every user interaction the whole
script reruns: it reads the API key from the environment (halting when it is
unset or empty), builds one Agent whose instructions come from the selected
response style, and then, depending on the selected tool, possibly sends one
prompt to the completion runner. The remote runner itself is external to the
repository, so it is modelled as an oracle function passed in as a parameter;
everything else below is translated branch by branch from src/main.py.
-/

namespace AIResearchAgent

/-- Response style selector, the sidebar radio of src/main.py line 40. -/
inductive ResponseStyle
| simple
| explainLikeImFive
| technical
deriving DecidableEq, Repr

/-- Instruction lookup, the dict at src/main.py lines 45-49 keyed by the
selected style. -/
def instructionFor : ResponseStyle → String
| ResponseStyle.simple =>
    "Give a short, clear, and factual response for any academic or research question."
| ResponseStyle.explainLikeImFive =>
    "Explain the answer in very simple, easy-to-understand terms, like to a 5-year-old."
| ResponseStyle.technical =>
    "Provide a detailed and technical explanation with examples, references, or formulas if needed."

/-- Tool selector, the selectbox at src/main.py lines 71-77. -/
inductive ToolSelection
| none
| pdfSummarization
| keywordExtraction
| apaReferenceGeneration
| conceptExplanation
deriving DecidableEq, Repr

/-- The configured agent, src/main.py lines 52-55. -/
structure Agent where
  name : String
  instructions : String
deriving DecidableEq, Repr

/-- Agent construction from the selected style, src/main.py lines 52-55. -/
def mkAgent (style : ResponseStyle) : Agent :=
  Agent.mk "Research Agent" (instructionFor style)

/-- Result of one completion round trip (response.final_output). -/
structure CompletionResult where
  finalOutput : String
deriving DecidableEq, Repr

/-- Failure of the remote completion call: any non-success response or
network failure raised by the runner. -/
inductive UpstreamError
| httpError (code : Nat)
| networkFailure (msg : String)
deriving DecidableEq, Repr

/-- The remote completion runner, external to the repository, modelled as an
oracle: given the agent and the prompt it either returns a result or raises
an upstream error. -/
abbrev Completion := Agent → String → Except UpstreamError CompletionResult

/-- One call of asyncio.run(Runner.run(agent, input=prompt, run_config=config)),
as on src/main.py line 64: the script wraps it in no try/except, so the
result, success or error, is returned unchanged. -/
def ask (client : Completion) (agent : Agent) (prompt : String) :
    Except UpstreamError CompletionResult :=
  client agent prompt

/-- Lead-in of the PDF summarization template, src/main.py line 84. -/
def pdfLeadIn : String := "Summarize the following research paper:\n\n"

/-- Lead-in of the keyword extraction template, src/main.py line 93. -/
def keywordLeadIn : String := "Extract the most relevant keywords from this content:\n\n"

/-- Lead-in of the APA reference template, src/main.py line 102. -/
def apaLeadIn : String := "Generate APA references from the following text:\n\n"

/-- Lead-in of the concept explainer template, src/main.py line 111. -/
def conceptLeadIn : String := "Explain the following concept in simple academic terms:\n\n"

/-- Prompt construction per tool, the f-strings of src/main.py lines 84, 93,
102 and 111; for the None tool the raw question is the prompt itself
(line 64). -/
def buildPrompt : ToolSelection → String → String
| ToolSelection.none, raw => raw
| ToolSelection.pdfSummarization, payload => pdfLeadIn ++ payload
| ToolSelection.keywordExtraction, payload => keywordLeadIn ++ payload
| ToolSelection.apaReferenceGeneration, payload => apaLeadIn ++ payload
| ToolSelection.conceptExplanation, payload => conceptLeadIn ++ payload

/-- Python slicing text[:8000] on src/main.py line 83: the first 8000
characters of the string. -/
def truncate8000 (s : String) : String := String.mk (s.data.take 8000)

/-- Concatenated page text of src/main.py line 83: pages whose extraction is
empty are dropped (Python truthiness filter) and the rest joined with no
separator. Each list element models one page.extract_text() result. -/
def concatPages (pages : List String) : String :=
  String.join (pages.filter (fun p => p != ""))

/-- Python str.strip() as used on src/main.py line 62: remove leading and
trailing whitespace characters. -/
def pyStrip (s : String) : String :=
  String.mk (((s.data.dropWhile Char.isWhitespace).reverse.dropWhile Char.isWhitespace).reverse)

/-- Record of what one interaction sent to the runner. -/
structure Trace where
  agentUsed : Agent
  promptSent : String
deriving DecidableEq, Repr

/-- One button-triggered interaction of the script, translated branch by
branch from src/main.py. Returns Option.none when the branch guard
suppresses the action (the runner is never invoked); otherwise the trace of
the one runner call together with its outcome.

Guards, from the source: the Get Answer branch (line 62) requires
question.strip() to be truthy; the three text tools (lines 92, 101, 110)
require only Python truthiness of the raw field, i.e. the string is not
empty — whitespace passes; the PDF branch (line 81) checks only that a file
was uploaded (handled by pdfInteraction below), never the extracted text.
For the PDF branch the input is the already extracted concatenated text and
line 83 truncates it to 8000 characters before the template. -/
def interact (client : Completion) (style : ResponseStyle) :
    ToolSelection → String → Option (Trace × Except UpstreamError CompletionResult)
| ToolSelection.none, input =>
    if pyStrip input = "" then Option.none
    else Option.some (Trace.mk (mkAgent style) input, ask client (mkAgent style) input)
| ToolSelection.pdfSummarization, input =>
    Option.some
      (Trace.mk (mkAgent style) (buildPrompt ToolSelection.pdfSummarization (truncate8000 input)),
       ask client (mkAgent style) (buildPrompt ToolSelection.pdfSummarization (truncate8000 input)))
| ToolSelection.keywordExtraction, input =>
    if input = "" then Option.none
    else Option.some
      (Trace.mk (mkAgent style) (buildPrompt ToolSelection.keywordExtraction input),
       ask client (mkAgent style) (buildPrompt ToolSelection.keywordExtraction input))
| ToolSelection.apaReferenceGeneration, input =>
    if input = "" then Option.none
    else Option.some
      (Trace.mk (mkAgent style) (buildPrompt ToolSelection.apaReferenceGeneration input),
       ask client (mkAgent style) (buildPrompt ToolSelection.apaReferenceGeneration input))
| ToolSelection.conceptExplanation, input =>
    if input = "" then Option.none
    else Option.some
      (Trace.mk (mkAgent style) (buildPrompt ToolSelection.conceptExplanation input),
       ask client (mkAgent style) (buildPrompt ToolSelection.conceptExplanation input))

/-- The PDF Summarization branch including its upload guard, src/main.py
lines 79-88: with no uploaded file the action is suppressed; with one, the
page texts are concatenated, truncated and templated, and the runner is
always invoked, regardless of whether any text was extracted. -/
def pdfInteraction (client : Completion) (style : ResponseStyle)
    (pdf : Option (List String)) :
    Option (Trace × Except UpstreamError CompletionResult) :=
  match pdf with
  | Option.none => Option.none
  | Option.some pages =>
      interact client style ToolSelection.pdfSummarization (concatPages pages)

/-- Startup failure taxonomy of the script head. -/
inductive InitError
| missingCredential
deriving DecidableEq, Repr

/-- The credential guard at src/main.py lines 10-13: os.getenv returns None
when the variable is unset, and Python falsiness of the string means it is
empty; in either case st.stop() halts the script before any widget is
offered. -/
def initApiKey : Option String → Except InitError String
| Option.none => Except.error InitError.missingCredential
| Option.some k =>
    if k = "" then Except.error InitError.missingCredential else Except.ok k

/-- One full run of the script for one interaction: the credential is read
first and any initialization error halts the run before a dispatch can
happen. -/
def runApp (env : Option String) (mkClient : String → Completion)
    (style : ResponseStyle) (tool : ToolSelection) (input : String) :
    Except InitError (Option (Trace × Except UpstreamError CompletionResult)) :=
  (initApiKey env).map (fun key => interact (mkClient key) style tool input)

/-- A runner that always succeeds, for concrete evaluations. -/
def okClient : Completion := fun _ _ => Except.ok (CompletionResult.mk "ok")

/-- A runner that always fails with the given upstream error. -/
def errClient (e : UpstreamError) : Completion := fun _ _ => Except.error e

/-- Helper: whatever the dispatcher returns for the runner outcome is exactly
the result of asking the recorded agent the recorded prompt — no layer
catches or transforms it. -/
theorem interact_result_eq_ask (client : Completion) (style : ResponseStyle)
    (tool : ToolSelection) (input : String) (t : Trace)
    (r : Except UpstreamError CompletionResult)
    (h : interact client style tool input = Option.some (t, r)) :
    r = ask client t.agentUsed t.promptSent := by
  cases tool <;> simp only [interact] at h <;> (try split at h) <;>
    first
    | exact Option.noConfusion h
    | (injection h with h1; injection h1 with h2 h3; subst h2; subst h3; rfl)

/-- Helper: the agent recorded by any non-suppressed interaction is the one
built from the selected style. -/
theorem interact_agent_eq (client : Completion) (style : ResponseStyle)
    (tool : ToolSelection) (input : String) (t : Trace)
    (r : Except UpstreamError CompletionResult)
    (h : interact client style tool input = Option.some (t, r)) :
    t.agentUsed = mkAgent style := by
  cases tool <;> simp only [interact] at h <;> (try split at h) <;>
    first
    | exact Option.noConfusion h
    | (injection h with h1; injection h1 with h2 h3; subst h2; rfl)

/-- C1 counterexample: the claim says any blank or whitespace-only payload
makes the action fail with EmptyPayload so the runner is never invoked, for
every tool other than None. In the source the Keyword Extraction guard
(src/main.py line 92) tests plain Python truthiness of the field, so the
whitespace-only payload " " passes the guard and the runner IS invoked with
the templated prompt. -/
theorem whitespace_payload_not_suppressed :
    interact okClient ResponseStyle.simple ToolSelection.keywordExtraction " " =
      Option.some (Trace.mk (mkAgent ResponseStyle.simple) (keywordLeadIn ++ " "),
        Except.ok (CompletionResult.mk "ok")) := by
  rfl

/-- C1 amended: for the three text tools (KeywordExtraction,
ApaReferenceGeneration, ConceptExplanation) the button action is suppressed,
and the runner never invoked, exactly when the payload is the empty string;
a whitespace-only payload is not rejected, and PdfSummarization checks only
that a file was uploaded, never the payload. -/
theorem empty_payload_suppresses_text_tools (client : Completion)
    (style : ResponseStyle) (tool : ToolSelection)
    (h : tool = ToolSelection.keywordExtraction ∨
      tool = ToolSelection.apaReferenceGeneration ∨
      tool = ToolSelection.conceptExplanation)
    (input : String) :
    interact client style tool input = Option.none ↔ input = "" := by
  rcases h with rfl | rfl | rfl <;> simp only [interact] <;> split <;> simp_all

/-- C1 witness: at the empty payload the Keyword Extraction action is
suppressed. -/
theorem empty_payload_suppresses_text_tools_witness :
    interact okClient ResponseStyle.simple ToolSelection.keywordExtraction "" =
      Option.none :=
  (empty_payload_suppresses_text_tools okClient ResponseStyle.simple
    ToolSelection.keywordExtraction (Or.inl rfl) "").mpr rfl

/-- C2 counterexample: the claim says an empty extraction is treated as
EmptyPayload with no completion call. In the source (src/main.py lines
79-88) an uploaded PDF whose single page yields no text still triggers the
runner: the prompt is the bare template lead-in and the completion call is
made. -/
theorem empty_extraction_still_dispatches :
    pdfInteraction okClient ResponseStyle.simple (Option.some [""]) =
      Option.some (Trace.mk (mkAgent ResponseStyle.simple) pdfLeadIn,
        Except.ok (CompletionResult.mk "ok")) := by
  rfl

/-- C2 amended: when PDF extraction yields no text the dispatch does NOT
treat it as EmptyPayload: the runner is invoked anyway, with the prompt
being exactly the template lead-in applied to the empty payload. -/
theorem empty_extraction_sends_template_prompt (client : Completion)
    (style : ResponseStyle) (pages : List String)
    (h : concatPages pages = "") :
    pdfInteraction client style (Option.some pages) =
      Option.some (Trace.mk (mkAgent style) pdfLeadIn,
        ask client (mkAgent style) pdfLeadIn) := by
  have h0 : truncate8000 "" = "" := rfl
  simp only [pdfInteraction, interact, buildPrompt, h, h0, String.append_empty]

/-- C2 witness: a PDF with no pages at all still sends the bare lead-in. -/
theorem empty_extraction_sends_template_prompt_witness :
    pdfInteraction okClient ResponseStyle.technical (Option.some []) =
      Option.some (Trace.mk (mkAgent ResponseStyle.technical) pdfLeadIn,
        ask okClient (mkAgent ResponseStyle.technical) pdfLeadIn) :=
  empty_extraction_sends_template_prompt okClient ResponseStyle.technical [] rfl

/-- C3: the payload inside the PDF summarization prompt is the extracted
text truncated before template application: it is the first 8000 characters
of the concatenated page text, the full text when its length is at most
8000, and exactly 8000 characters long when the text is longer. -/
theorem pdf_payload_truncated_to_8000 (client : Completion)
    (style : ResponseStyle) (pages : List String) :
    pdfInteraction client style (Option.some pages) =
      Option.some
        (Trace.mk (mkAgent style) (pdfLeadIn ++ truncate8000 (concatPages pages)),
         ask client (mkAgent style) (pdfLeadIn ++ truncate8000 (concatPages pages))) ∧
    (truncate8000 (concatPages pages)).data = (concatPages pages).data.take 8000 ∧
    ((concatPages pages).data.length ≤ 8000 →
      truncate8000 (concatPages pages) = concatPages pages) ∧
    (8000 < (concatPages pages).data.length →
      (truncate8000 (concatPages pages)).data.length = 8000) := by
  refine ⟨rfl, rfl, ?_, ?_⟩
  · intro hle
    show String.mk ((concatPages pages).data.take 8000) = concatPages pages
    rw [List.take_of_length_le hle]
  · intro hlt
    show ((concatPages pages).data.take 8000).length = 8000
    rw [List.length_take]
    exact Nat.min_eq_left (Nat.le_of_lt hlt)

/-- C3 witness: concrete evaluation on a two-page document. -/
theorem pdf_payload_truncated_to_8000_witness :
    pdfInteraction okClient ResponseStyle.simple (Option.some ["ab", "cd"]) =
      Option.some
        (Trace.mk (mkAgent ResponseStyle.simple)
          (pdfLeadIn ++ truncate8000 (concatPages ["ab", "cd"])),
         ask okClient (mkAgent ResponseStyle.simple)
          (pdfLeadIn ++ truncate8000 (concatPages ["ab", "cd"]))) ∧
    (truncate8000 (concatPages ["ab", "cd"])).data =
      (concatPages ["ab", "cd"]).data.take 8000 ∧
    ((concatPages ["ab", "cd"]).data.length ≤ 8000 →
      truncate8000 (concatPages ["ab", "cd"]) = concatPages ["ab", "cd"]) ∧
    (8000 < (concatPages ["ab", "cd"]).data.length →
      (truncate8000 (concatPages ["ab", "cd"])).data.length = 8000) :=
  pdf_payload_truncated_to_8000 okClient ResponseStyle.simple ["ab", "cd"]

/-- C4: on the Get Answer path (tool None), whenever the guard passes, the
prompt handed to the runner is the raw question itself, with no template or
other modification. -/
theorem none_tool_prompt_verbatim (client : Completion) (style : ResponseStyle)
    (raw : String) (h : pyStrip raw ≠ "") :
    interact client style ToolSelection.none raw =
      Option.some (Trace.mk (mkAgent style) raw, ask client (mkAgent style) raw) := by
  simp only [interact]
  rw [if_neg h]

/-- C4 witness: the example question from the spec goes through verbatim. -/
theorem none_tool_prompt_verbatim_witness :
    interact okClient ResponseStyle.simple ToolSelection.none
        "What is quantum entanglement?" =
      Option.some
        (Trace.mk (mkAgent ResponseStyle.simple) "What is quantum entanglement?",
         ask okClient (mkAgent ResponseStyle.simple) "What is quantum entanglement?") :=
  none_tool_prompt_verbatim okClient ResponseStyle.simple
    "What is quantum entanglement?" (by decide)

/-- C5: for a non-empty payload the PDF summarization prompt is exactly the
fixed non-empty lead-in phrase followed by the payload verbatim, so the
payload appears after the lead-in. -/
theorem pdf_prompt_leadin_then_payload (x : String) (h : x ≠ "") :
    buildPrompt ToolSelection.pdfSummarization x = pdfLeadIn ++ x ∧
    pdfLeadIn ≠ "" :=
  ⟨rfl, by decide⟩

/-- C5 witness: concrete evaluation at the payload X. -/
theorem pdf_prompt_leadin_then_payload_witness :
    buildPrompt ToolSelection.pdfSummarization "X" = pdfLeadIn ++ "X" ∧
    pdfLeadIn ≠ "" :=
  pdf_prompt_leadin_then_payload "X" (by decide)

/-- C6: the instruction lookup is total over the three response styles by
construction, and the three instruction strings are non-empty and pairwise
distinct. -/
theorem instructionFor_nonempty_distinct :
    (instructionFor ResponseStyle.simple ≠ "" ∧
     instructionFor ResponseStyle.explainLikeImFive ≠ "" ∧
     instructionFor ResponseStyle.technical ≠ "") ∧
    (instructionFor ResponseStyle.simple ≠ instructionFor ResponseStyle.explainLikeImFive ∧
     instructionFor ResponseStyle.simple ≠ instructionFor ResponseStyle.technical ∧
     instructionFor ResponseStyle.explainLikeImFive ≠ instructionFor ResponseStyle.technical) := by
  decide

/-- C7: when the credential environment variable is unset or empty, the run
halts with MissingCredential before any interaction, for every choice of
style, tool and input, so no dispatch can succeed in that process. -/
theorem missing_credential_halts (env : Option String)
    (mkClient : String → Completion) (style : ResponseStyle)
    (tool : ToolSelection) (input : String)
    (h : env = Option.none ∨ env = Option.some "") :
    runApp env mkClient style tool input =
      Except.error InitError.missingCredential := by
  rcases h with rfl | rfl <;> rfl

/-- C7 witness: with the variable unset, the run halts. -/
theorem missing_credential_halts_witness :
    runApp Option.none (fun _ => okClient) ResponseStyle.simple
        ToolSelection.none "q" =
      Except.error InitError.missingCredential :=
  missing_credential_halts Option.none (fun _ => okClient) ResponseStyle.simple
    ToolSelection.none "q" (Or.inl rfl)

/-- C8: when the runner raises an upstream error, every non-suppressed
interaction returns exactly that error: it passes unchanged through the ask
layer and the dispatch layer, with no catching, transformation or retry. -/
theorem upstream_error_propagates (e : UpstreamError) (style : ResponseStyle)
    (tool : ToolSelection) (input : String) (t : Trace)
    (r : Except UpstreamError CompletionResult)
    (h : interact (errClient e) style tool input = Option.some (t, r)) :
    r = Except.error e ∧
    ask (errClient e) t.agentUsed t.promptSent = Except.error e := by
  have h1 := interact_result_eq_ask (errClient e) style tool input t r h
  exact ⟨h1.trans rfl, rfl⟩

/-- C8 witness: a simulated network failure surfaces unchanged from a
Concept Explainer dispatch. -/
theorem upstream_error_propagates_witness :
    (Except.error (UpstreamError.networkFailure "down") :
        Except UpstreamError CompletionResult) =
      Except.error (UpstreamError.networkFailure "down") ∧
    ask (errClient (UpstreamError.networkFailure "down"))
        (Trace.mk (mkAgent ResponseStyle.simple) (conceptLeadIn ++ "q")).agentUsed
        (Trace.mk (mkAgent ResponseStyle.simple) (conceptLeadIn ++ "q")).promptSent =
      Except.error (UpstreamError.networkFailure "down") :=
  upstream_error_propagates (UpstreamError.networkFailure "down")
    ResponseStyle.simple ToolSelection.conceptExplanation "q"
    (Trace.mk (mkAgent ResponseStyle.simple) (conceptLeadIn ++ "q"))
    (Except.error (UpstreamError.networkFailure "down")) rfl

/-- C9: the agent active during any non-suppressed interaction is uniquely
determined by the selected response style: its name is fixed and its
instructions are exactly instructionFor of that style. The embedding is a
pure function of one interaction, mirroring the source script that is rerun
from the top on every interaction, so no agent persists across cycles. -/
theorem agent_determined_by_style (client : Completion) (style : ResponseStyle)
    (tool : ToolSelection) (input : String) (t : Trace)
    (r : Except UpstreamError CompletionResult)
    (h : interact client style tool input = Option.some (t, r)) :
    t.agentUsed = Agent.mk "Research Agent" (instructionFor style) :=
  interact_agent_eq client style tool input t r h

/-- C9 witness: concrete Keyword Extraction interaction uses the agent built
from the Technical style. -/
theorem agent_determined_by_style_witness :
    (Trace.mk (mkAgent ResponseStyle.technical) (keywordLeadIn ++ "ai")).agentUsed =
      Agent.mk "Research Agent" (instructionFor ResponseStyle.technical) :=
  agent_determined_by_style okClient ResponseStyle.technical
    ToolSelection.keywordExtraction "ai"
    (Trace.mk (mkAgent ResponseStyle.technical) (keywordLeadIn ++ "ai"))
    (Except.ok (CompletionResult.mk "ok")) rfl

/-- C10: two interactions that differ only in the selected response style
send the same prompt (or are both suppressed): the style never influences
the constructed prompt text, only the agent instructions. -/
theorem prompt_independent_of_style (client : Completion) (tool : ToolSelection)
    (input : String) (s1 s2 : ResponseStyle) :
    Option.map (fun p => p.1.promptSent) (interact client s1 tool input) =
      Option.map (fun p => p.1.promptSent) (interact client s2 tool input) := by
  cases tool <;> simp only [interact] <;> (try split) <;> rfl

end AIResearchAgent
